import Mathlib

/-!
Verification development for the hellozigbee smart-switch firmware.

The `DebugInput` definitions below are a shallow embedding of
`src/DebugInput.cpp`.  The button click classifier, the relay-mode engine,
the interlock coordinator and the configuration-write validation are
modelled from the project specification, since their implementation files
(`ButtonHandler.cpp`, `SwitchEndpoint.cpp`, `OnOffSettings` handling) are
not part of the available source tree; only their declarations appear in
`src/SwitchEndpoint.h`.
-/

/- ### Shallow embedding of src/DebugInput.cpp -/

/-- State of the `DebugInput` accumulator: the byte buffer contents (as a
function from byte offset to byte value), the cursor offset `ptr` (the
offset of the C pointer `ptr` from the start of `buf`), and the `hasData`
flag. -/
structure DebugInput where
  buf : Nat → Nat
  ptr : Nat
  hasData : Bool

/-- Embeds `DebugInput::reset`: point the cursor back at the start of the
buffer and clear `hasData`; buffer contents are not touched. -/
def DebugInput.reset (s : DebugInput) : DebugInput :=
  { s with ptr := 0, hasData := false }

/-- Embeds `DebugInput::hasCompletedLine`. -/
def DebugInput.hasCompletedLine (s : DebugInput) : Bool := s.hasData

/-- One iteration of the receive loop body of `DebugInput::handleDebugInput`:
a received CR or LF byte (13 or 10) is stored as a 0 terminator and sets
`hasData`, any other byte is stored as is; the cursor then advances. -/
def stepChar (s : DebugInput) (ch : Nat) : DebugInput :=
  if ch = 13 ∨ ch = 10 then
    { buf := Function.update s.buf s.ptr 0, ptr := s.ptr + 1, hasData := true }
  else
    { buf := Function.update s.buf s.ptr ch, ptr := s.ptr + 1, hasData := s.hasData }

/-- The receive loop of `DebugInput::handleDebugInput`: consume every byte
currently available in the UART FIFO, with no per-iteration bound check.
Returns the final state together with the trace of buffer indices stored
through the cursor (one store per received byte). -/
def handleChars : DebugInput → List Nat → DebugInput × List Nat
  | s, [] => (s, [])
  | s, ch :: rest =>
    ((handleChars (stepChar s ch) rest).1, s.ptr :: (handleChars (stepChar s ch) rest).2)

/-- Embeds one call of `DebugInput::handleDebugInput`, parameterised by the
`BUF_SIZE` constant declared in the class header: the entry guard
`if (ptr >= buf + BUF_SIZE) return;` followed by the unguarded receive
loop.  `fifo` is the sequence of bytes available in the UART receive FIFO
during this call.  Returns the final state and the trace of buffer indices
stored to. -/
def handleDebugInput (BUF_SIZE : Nat) (s : DebugInput) (fifo : List Nat) :
    DebugInput × List Nat :=
  if BUF_SIZE ≤ s.ptr then (s, []) else handleChars s fifo

/-- Embeds the `strncmp(command, buf, len) == 0` test inside
`DebugInput::matchCommand`, comparing the command bytes (`cmd` lists the
bytes of the null-terminated command string before its terminator) against
the buffer starting at index `i`; the comparison stops early at the first
mismatch or at a 0 byte. -/
def strncmpIsZero : List Nat → (Nat → Nat) → Nat → Bool
  | [], _, _ => true
  | c :: rest, buf, i =>
    if c ≠ buf i then false
    else if c = 0 then true
    else strncmpIsZero rest buf (i + 1)

/-- Embeds `DebugInput::matchCommand`: the first `strlen(command)` buffer
bytes must equal the command bytes and the buffer byte right after them
must be the 0 terminator. -/
def DebugInput.matchCommand (s : DebugInput) (cmd : List Nat) : Bool :=
  strncmpIsZero cmd s.buf 0 && decide (s.buf cmd.length = 0)

/-- Byte values of the string literal BTN1_PRESS in `APP_vHandleDebugInput`. -/
def BTN1_PRESS : List Nat := [66, 84, 78, 49, 95, 80, 82, 69, 83, 83]

/-- Byte values of the string literal BTN2_PRESS in `APP_vHandleDebugInput`. -/
def BTN2_PRESS : List Nat := [66, 84, 78, 50, 95, 80, 82, 69, 83, 83]

/-- Byte values of the string literal BTN3_PRESS in `APP_vHandleDebugInput`. -/
def BTN3_PRESS : List Nat := [66, 84, 78, 51, 95, 80, 82, 69, 83, 83]

/-- Byte values of the string literal BTN1_RELEASE in `APP_vHandleDebugInput`. -/
def BTN1_RELEASE : List Nat := [66, 84, 78, 49, 95, 82, 69, 76, 69, 65, 83, 69]

/-- Byte values of the string literal BTN2_RELEASE in `APP_vHandleDebugInput`. -/
def BTN2_RELEASE : List Nat := [66, 84, 78, 50, 95, 82, 69, 76, 69, 65, 83, 69]

/-- Byte values of the string literal BTN3_RELEASE in `APP_vHandleDebugInput`. -/
def BTN3_RELEASE : List Nat := [66, 84, 78, 51, 95, 82, 69, 76, 69, 65, 83, 69]

/-- Embeds `APP_vHandleDebugInput`: poll the UART, and when a completed
line is present run the command matchers, recording every
`setButtonsOverride` argument in order, then reset the accumulator.
`m1`/`m2` stand for the `SWITCH1_BTN_MASK`/`SWITCH2_BTN_MASK` constants and
`hasSecondButton` for the `SWITCH2_BTN_PIN` compile-time switch. -/
def APP_vHandleDebugInput (BUF_SIZE : Nat) (hasSecondButton : Bool) (m1 m2 : Nat)
    (s : DebugInput) (fifo : List Nat) : DebugInput × List Nat :=
  let s1 := (handleDebugInput BUF_SIZE s fifo).1
  if s1.hasData then
    (DebugInput.reset s1,
      (if s1.matchCommand BTN1_PRESS then [m1] else []) ++
      (if hasSecondButton && s1.matchCommand BTN2_PRESS then [m2] else []) ++
      (if hasSecondButton && s1.matchCommand BTN3_PRESS then [m1 ||| m2] else []) ++
      (if s1.matchCommand BTN1_RELEASE || s1.matchCommand BTN2_RELEASE
          || s1.matchCommand BTN3_RELEASE then [0] else []))
  else (s1, [])

/- ### Behavioral core, modelled from the specification -/

/-- Modelled from the spec: the `Operating Mode` setting of a channel
(implementation not in the source tree). -/
inductive OperatingMode
  | Server
  | Client
  deriving DecidableEq

/-- Modelled from the spec: the `Switch Mode` setting of a channel
(implementation not in the source tree). -/
inductive SwitchMode
  | Toggle
  | Momentary
  | Multifunction
  deriving DecidableEq

/-- Modelled from the spec: the `Switch Actions` setting (Momentary mode
only; implementation not in the source tree). -/
inductive SwitchActions
  | OnOff
  | OffOn
  | Toggle
  deriving DecidableEq

/-- Modelled from the spec: the `Relay Mode` setting (Multifunction mode
only; implementation not in the source tree). -/
inductive RelayMode
  | Unlinked
  | Front
  | Single
  | Double
  | Triple
  | Long
  deriving DecidableEq

/-- Modelled from the spec: the `Long Press Mode` setting (implementation
not in the source tree). -/
inductive LongPressMode
  | None
  | LevelCtrlUp
  | LevelCtrlDown
  deriving DecidableEq

/-- Modelled from the spec: the `Interlock Mode` setting (implementation
not in the source tree). -/
inductive InterlockMode
  | None
  | MutualExclusion
  | Opposite
  deriving DecidableEq

/-- Modelled from the spec: the per-channel `ChannelConfiguration`
parameter set (implementation not in the source tree).  Durations are in
milliseconds. -/
structure ChannelConfiguration where
  operatingMode : OperatingMode
  switchMode : SwitchMode
  switchActions : SwitchActions
  relayMode : RelayMode
  longPressMode : LongPressMode
  interlockMode : InterlockMode
  maxPause : Nat
  minLongPress : Nat
  deriving DecidableEq

/-- Modelled from the spec: the `ButtonAction` classified outcomes
(`ButtonActionType` in the missing `ButtonHandler.h`). -/
inductive ButtonAction
  | Press
  | Release
  | SinglePress
  | DoublePress
  | TriplePress
  | LongPress
  | LongPressRelease
  deriving DecidableEq

/-- Modelled from the spec: the phase of the per-channel classifier state
machine, after the debounce filter (debounced logical edges are the
classifier's input, so the `Debouncing` phase is not modelled). -/
inductive ClPhase
  | Idle
  | PressedWaiting
  | PauseWaiting
  | LongPressActive
  deriving DecidableEq

/-- Modelled from the spec: the mutable `ClassifierState` of a channel:
phase, current click count, and the armed timer deadline (absolute time,
milliseconds). -/
structure ClassifierState where
  phase : ClPhase
  clicks : Nat
  deadline : Nat
  deriving DecidableEq

/-- Modelled from the spec: the classifier's reset/initial state. -/
def initClassifier : ClassifierState :=
  { phase := ClPhase.Idle, clicks := 0, deadline := 0 }

/-- Modelled from the spec: gesture finalization after `MaxPause` of
silence: 1 click yields `SinglePress`, 2 yield `DoublePress`, 3 or more
collapse to `TriplePress` (a click count of 0 never reaches finalization). -/
def finalizeClicks : Nat → ButtonAction
  | 1 => ButtonAction.SinglePress
  | 2 => ButtonAction.DoublePress
  | _ => ButtonAction.TriplePress

/-- Modelled from the spec: fire any pending classifier timer whose
deadline has been reached at time `t`.  While pressed, the long-press
timer fires once the hold reaches `MinLongPress` (reaching the deadline
exactly counts as held long enough).  While waiting after a release, the
pause timer finalizes the gesture; a press edge arriving exactly at the
deadline is still in time (inclusive), so for a press the timer fires only
strictly after the deadline. -/
def fireTimers (s : ClassifierState) (t : Nat) (isPress : Bool) :
    ClassifierState × List ButtonAction :=
  match s.phase with
  | ClPhase.PressedWaiting =>
    if s.deadline ≤ t then
      ({ phase := ClPhase.LongPressActive, clicks := 0, deadline := 0 },
        [ButtonAction.LongPress])
    else (s, [])
  | ClPhase.PauseWaiting =>
    if (if isPress then s.deadline < t else s.deadline ≤ t) then
      (initClassifier, [finalizeClicks s.clicks])
    else (s, [])
  | _ => (s, [])

/-- Modelled from the spec: processing one debounced edge in
`Multifunction` mode.  Pending timers fire first; then a press from idle
starts a gesture with one click and arms the long-press timer, a press
while waiting for a pause extends the gesture, a release before the
long-press deadline starts the `MaxPause` wait, and a release while the
long press is active emits `LongPressRelease` and returns to idle.
Ill-formed repeated edges leave the state unchanged. -/
def onEdgeMulti (cfg : ChannelConfiguration) (s : ClassifierState)
    (pressed : Bool) (t : Nat) : ClassifierState × List ButtonAction :=
  match (fireTimers s t pressed).1.phase, pressed with
  | ClPhase.Idle, true =>
    ({ phase := ClPhase.PressedWaiting, clicks := 1, deadline := t + cfg.minLongPress },
      (fireTimers s t pressed).2)
  | ClPhase.PauseWaiting, true =>
    ({ phase := ClPhase.PressedWaiting, clicks := (fireTimers s t pressed).1.clicks + 1,
       deadline := t + cfg.minLongPress },
      (fireTimers s t pressed).2)
  | ClPhase.PressedWaiting, false =>
    ({ phase := ClPhase.PauseWaiting, clicks := (fireTimers s t pressed).1.clicks,
       deadline := t + cfg.maxPause },
      (fireTimers s t pressed).2)
  | ClPhase.LongPressActive, false =>
    (initClassifier, (fireTimers s t pressed).2 ++ [ButtonAction.LongPressRelease])
  | _, _ => (fireTimers s t pressed)

/-- Modelled from the spec: a periodic tick at time `now` only fires
pending timers. -/
def onTickCl (s : ClassifierState) (now : Nat) : ClassifierState × List ButtonAction :=
  fireTimers s now false

/-- Modelled from the spec: the classifier's edge entry point.  In
`Toggle` and `Momentary` modes every press/release immediately emits
`Press`/`Release` with no multi-click disambiguation; in `Multifunction`
mode the click-counting state machine runs. -/
def onEdge (cfg : ChannelConfiguration) (s : ClassifierState)
    (pressed : Bool) (t : Nat) : ClassifierState × List ButtonAction :=
  match cfg.switchMode with
  | SwitchMode.Multifunction => onEdgeMulti cfg s pressed t
  | _ => (s, [if pressed then ButtonAction.Press else ButtonAction.Release])

/-- Modelled from the spec: an input event of the classifier: a debounced
edge with its timestamp, or a periodic tick with the current time. -/
inductive InputEvent
  | edge (pressed : Bool) (t : Nat)
  | tick (now : Nat)
  deriving DecidableEq

/-- Modelled from the spec: process one input event. -/
def stepEvent (cfg : ChannelConfiguration) (s : ClassifierState) :
    InputEvent → ClassifierState × List ButtonAction
  | InputEvent.edge p t => onEdge cfg s p t
  | InputEvent.tick now => onTickCl s now

/-- Modelled from the spec: run the classifier over a time-ordered list of
input events, collecting every emitted action in order. -/
def runClassifier (cfg : ChannelConfiguration) (s : ClassifierState) :
    List InputEvent → ClassifierState × List ButtonAction
  | [] => (s, [])
  | e :: rest =>
    ((runClassifier cfg (stepEvent cfg s e).1 rest).1,
      (stepEvent cfg s e).2 ++ (runClassifier cfg (stepEvent cfg s e).1 rest).2)

/-- Modelled from the spec: a network-facing command intent produced by
the relay-mode engine (On/Off/Toggle to bound devices, or the level
control move/stop sent by `sendLevelControlMoveCommand` /
`sendLevelControlStopCommand`, whose bodies are not in the source tree). -/
inductive NetworkCommand
  | TurnOn
  | TurnOff
  | ToggleCmd
  | LevelMove (up : Bool)
  | LevelStop
  deriving DecidableEq

/-- Modelled from the spec: the outcome of feeding one classified action
to the relay-mode engine. -/
structure EngineOutput where
  relayTransition : Option Bool
  reportIntent : Option ButtonAction
  networkCommandIntent : Option NetworkCommand
  deriving DecidableEq

/-- Modelled from the spec: whether a classified action matches the
configured `Relay Mode` (`Front` matches `Press`, `Single` matches
`SinglePress`, `Double` matches `DoublePress`, `Triple` matches
`TriplePress`, `Long` matches `LongPress`; `Unlinked` matches nothing). -/
def relayMatches (rm : RelayMode) (a : ButtonAction) : Bool :=
  match rm, a with
  | RelayMode.Front, ButtonAction.Press => true
  | RelayMode.Single, ButtonAction.SinglePress => true
  | RelayMode.Double, ButtonAction.DoublePress => true
  | RelayMode.Triple, ButtonAction.TriplePress => true
  | RelayMode.Long, ButtonAction.LongPress => true
  | _, _ => false

/-- Modelled from the spec: the level-control command intent attached to
long-press handling: with `LongPressMode` other than `None`, `LongPress`
emits a move (up or down per the mode) and `LongPressRelease` emits a
stop. -/
def levelControlIntent (m : LongPressMode) (a : ButtonAction) : Option NetworkCommand :=
  match m, a with
  | LongPressMode.LevelCtrlUp, ButtonAction.LongPress => some (NetworkCommand.LevelMove true)
  | LongPressMode.LevelCtrlDown, ButtonAction.LongPress => some (NetworkCommand.LevelMove false)
  | LongPressMode.LevelCtrlUp, ButtonAction.LongPressRelease => some NetworkCommand.LevelStop
  | LongPressMode.LevelCtrlDown, ButtonAction.LongPressRelease => some NetworkCommand.LevelStop
  | _, _ => none

/-- Modelled from the spec: the relay-mode engine mapping of one
classified action in `Multifunction` mode, given the current relay state.
In `Server` mode the relay toggles exactly when the action matches the
configured `Relay Mode`, every classified action is reported, and the
level-control intent is attached independently of the relay coupling.  In
`Client` mode the local relay is never touched and qualifying actions
become network commands instead. -/
def onAction (cfg : ChannelConfiguration) (relay : Bool) (a : ButtonAction) :
    EngineOutput :=
  match cfg.operatingMode with
  | OperatingMode.Server =>
    { relayTransition := if relayMatches cfg.relayMode a then some (!relay) else none
      reportIntent := some a
      networkCommandIntent := levelControlIntent cfg.longPressMode a }
  | OperatingMode.Client =>
    { relayTransition := none
      reportIntent := none
      networkCommandIntent :=
        match levelControlIntent cfg.longPressMode a with
        | some c => some c
        | none => if relayMatches cfg.relayMode a then some NetworkCommand.ToggleCmd else none }

/-- Modelled from the spec: the pair of sibling relay states coordinated
by the interlock (channel A and channel B of a two-gang device). -/
structure RelayPair where
  chA : Bool
  chB : Bool
  deriving DecidableEq

/-- Modelled from the spec: identifier of one of the two paired channels. -/
inductive ChannelId
  | A
  | B
  deriving DecidableEq

/-- Modelled from the spec: the sibling of a channel in the interlock
pair. -/
def siblingOf : ChannelId → ChannelId
  | ChannelId.A => ChannelId.B
  | ChannelId.B => ChannelId.A

/-- Modelled from the spec: read one channel's relay state. -/
def getRelay (s : RelayPair) : ChannelId → Bool
  | ChannelId.A => s.chA
  | ChannelId.B => s.chB

/-- Modelled from the spec: write one channel's relay state. -/
def setRelay (s : RelayPair) : ChannelId → Bool → RelayPair
  | ChannelId.A, b => { s with chA := b }
  | ChannelId.B, b => { s with chB := b }

/-- Modelled from the spec: `InterlockCoordinator::proposeTransition`
(implementation not in the source tree).  `None` applies the transition as
proposed; `MutualExclusion` silently forces the sibling off when a channel
turns on and leaves the sibling alone when a channel turns off;
`Opposite` forces the sibling to the logical negation.  All cascading
effects are applied within this single call, so the returned pair is the
only externally observable state. -/
def proposeTransition (mode : InterlockMode) (s : RelayPair) (ch : ChannelId)
    (newState : Bool) : RelayPair :=
  match mode with
  | InterlockMode.None => setRelay s ch newState
  | InterlockMode.MutualExclusion =>
    if newState then setRelay (setRelay s (siblingOf ch) false) ch true
    else setRelay s ch false
  | InterlockMode.Opposite => setRelay (setRelay s ch newState) (siblingOf ch) (!newState)

/-- Modelled from the spec: the relay pairs reachable from `init` by any
sequence of proposed transitions (local button actions or network
commands all funnel through `proposeTransition`). -/
inductive ReachableFrom (mode : InterlockMode) (init : RelayPair) : RelayPair → Prop
  | refl : ReachableFrom mode init init
  | step (s : RelayPair) (ch : ChannelId) (b : Bool) :
      ReachableFrom mode init s → ReachableFrom mode init (proposeTransition mode s ch b)

/-- Modelled from the spec: the error taxonomy of a configuration write;
invalid combinations are rejected with a status, never a fault. -/
inductive ConfigError
  | ConfigurationConflict
  deriving DecidableEq

/-- Modelled from the spec: one runtime configuration attribute write. -/
inductive ConfigWrite
  | setOperatingMode (m : OperatingMode)
  | setSwitchMode (m : SwitchMode)
  | setSwitchActions (a : SwitchActions)
  | setRelayMode (m : RelayMode)
  | setLongPressMode (m : LongPressMode)
  | setInterlockMode (m : InterlockMode)
  | setMaxPause (d : Nat)
  | setMinLongPress (d : Nat)
  deriving DecidableEq

/-- Modelled from the spec: apply one configuration write to channel
configuration `self` whose interlock sibling is configured as `sib`.
`Relay Mode` is Multifunction-only and `Switch Actions` Momentary-only;
the interlock setting must agree with the sibling; `MaxPause` and
`MinLongPress` must stay positive.  A conflicting write is rejected: the
previous configuration is returned unchanged together with the error
status. -/
def writeConfig (self sib : ChannelConfiguration) :
    ConfigWrite → ChannelConfiguration × Option ConfigError
  | ConfigWrite.setOperatingMode m => ({ self with operatingMode := m }, none)
  | ConfigWrite.setSwitchMode m => ({ self with switchMode := m }, none)
  | ConfigWrite.setSwitchActions a =>
    if self.switchMode = SwitchMode.Momentary then ({ self with switchActions := a }, none)
    else (self, some ConfigError.ConfigurationConflict)
  | ConfigWrite.setRelayMode m =>
    if self.switchMode = SwitchMode.Multifunction then ({ self with relayMode := m }, none)
    else (self, some ConfigError.ConfigurationConflict)
  | ConfigWrite.setLongPressMode m => ({ self with longPressMode := m }, none)
  | ConfigWrite.setInterlockMode m =>
    if m = sib.interlockMode then ({ self with interlockMode := m }, none)
    else (self, some ConfigError.ConfigurationConflict)
  | ConfigWrite.setMaxPause d =>
    if 0 < d then ({ self with maxPause := d }, none)
    else (self, some ConfigError.ConfigurationConflict)
  | ConfigWrite.setMinLongPress d =>
    if 0 < d then ({ self with minLongPress := d }, none)
    else (self, some ConfigError.ConfigurationConflict)

/-- Modelled from the spec: the event trace of a multi-click gesture: for
each `(p, r)` pair a press edge at time `p` followed by a release edge at
time `r`. -/
def clickEvents : List (Nat × Nat) → List InputEvent
  | [] => []
  | (p, r) :: rest =>
    InputEvent.edge true p :: InputEvent.edge false r :: clickEvents rest

/-- Modelled from the spec: the timing constraints of a multi-click
gesture continuing from pause deadline `d`: each press arrives no later
than the pending pause deadline (arrival exactly at the deadline is in
time) and each press is released before its long-press deadline. -/
def pairsOk (cfg : ChannelConfiguration) : Nat → List (Nat × Nat) → Bool
  | _, [] => true
  | d, (p, r) :: rest =>
    decide (p ≤ d) && decide (r < p + cfg.minLongPress) &&
      pairsOk cfg (r + cfg.maxPause) rest

/-- Modelled from the spec: the pause deadline pending after the last
release of a multi-click gesture continuing from pause deadline `d`. -/
def lastDeadline (cfg : ChannelConfiguration) : Nat → List (Nat × Nat) → Nat
  | d, [] => d
  | _, (_, r) :: rest => lastDeadline cfg (r + cfg.maxPause) rest

/- ### Concrete states and configurations used by witnesses -/

/-- Fresh `DebugInput` state: zeroed buffer, cursor at the start. -/
def dbgEmpty : DebugInput :=
  { buf := fun _ => 0, ptr := 0, hasData := false }

/-- A `DebugInput` state whose cursor sits one byte before the end of a
16-byte buffer (reachable by fifteen one-byte polls). -/
def dbgNearEnd : DebugInput :=
  { buf := fun _ => 0, ptr := 15, hasData := false }

/-- A `DebugInput` state holding the completed two-byte line "BT". -/
def dbgLineBT : DebugInput :=
  { buf := fun i => [66, 84, 0].getD i 7, ptr := 3, hasData := true }

/-- A concrete `Multifunction` configuration used by witnesses. -/
def cfgMF : ChannelConfiguration :=
  { operatingMode := OperatingMode.Server
    switchMode := SwitchMode.Multifunction
    switchActions := SwitchActions.Toggle
    relayMode := RelayMode.Double
    longPressMode := LongPressMode.LevelCtrlUp
    interlockMode := InterlockMode.None
    maxPause := 100
    minLongPress := 60 }

/-- A concrete `Toggle`-mode configuration used by witnesses. -/
def cfgToggle : ChannelConfiguration :=
  { operatingMode := OperatingMode.Server
    switchMode := SwitchMode.Toggle
    switchActions := SwitchActions.OnOff
    relayMode := RelayMode.Single
    longPressMode := LongPressMode.None
    interlockMode := InterlockMode.MutualExclusion
    maxPause := 250
    minLongPress := 1000 }

/- ### Lemmas about the DebugInput embedding -/

theorem stepChar_hasData (s : DebugInput) (ch : Nat) :
    (stepChar s ch).hasData = (s.hasData || decide (ch = 13 ∨ ch = 10)) := by
  unfold stepChar
  split
  · simp [*]
  · simp [*]

theorem handleChars_hasData_mono (l : List Nat) (s : DebugInput)
    (h : s.hasData = true) : (handleChars s l).1.hasData = true := by
  induction l generalizing s with
  | nil => simpa [handleChars] using h
  | cons c rest ih =>
    simp only [handleChars]
    exact ih _ (by rw [stepChar_hasData, h]; rfl)

theorem handleChars_frame (l : List Nat) (s : DebugInput) (i : Nat)
    (h : i ∉ (handleChars s l).2) : (handleChars s l).1.buf i = s.buf i := by
  induction l generalizing s with
  | nil => rfl
  | cons c rest ih =>
    simp only [handleChars, List.mem_cons, not_or] at h ⊢
    rw [ih (stepChar s c) h.2]
    unfold stepChar
    split
    · exact Function.update_noteq h.1 _ _
    · exact Function.update_noteq h.1 _ _

theorem strncmpIsZero_eq_true_iff (cmd : List Nat) (buf : Nat → Nat) (i : Nat)
    (h : ∀ c ∈ cmd, c ≠ 0) :
    strncmpIsZero cmd buf i = true ↔
      ∀ j, j < cmd.length → buf (i + j) = cmd.getD j 0 := by
  induction cmd generalizing i with
  | nil => simp [strncmpIsZero]
  | cons c rest ih =>
    have hc : c ≠ 0 := h c (List.mem_cons_self c rest)
    have hrest : ∀ x ∈ rest, x ≠ 0 := fun x hx => h x (List.mem_cons_of_mem c hx)
    by_cases hcb : c = buf i
    · have hred : strncmpIsZero (c :: rest) buf i = strncmpIsZero rest buf (i + 1) := by
        simp only [strncmpIsZero]
        rw [if_neg (not_not_intro hcb), if_neg hc]
      rw [hred, ih (i + 1) hrest]
      constructor
      · intro hr j hj
        cases j with
        | zero => simpa using hcb.symm
        | succ j =>
          have hj' : j < rest.length := by simpa using hj
          have := hr j hj'
          have harith : i + (j + 1) = i + 1 + j := by omega
          rw [harith]
          simpa using this
      · intro hr j hj
        have := hr (j + 1) (by simp; omega)
        have harith : i + 1 + j = i + (j + 1) := by omega
        rw [harith]
        simpa using this
    · have hred : strncmpIsZero (c :: rest) buf i = false := by
        simp only [strncmpIsZero]
        rw [if_pos hcb]
      rw [hred]
      simp only [Bool.false_eq_true, false_iff]
      intro hall
      exact hcb (by simpa using (hall 0 (by simp)).symm)

/- ### Claims about DebugInput -/

/-- C8: refuted.  The claim states that the entry guard of
`DebugInput::handleDebugInput` keeps every store through the cursor
strictly inside the `BUF_SIZE`-byte buffer for every number of FIFO bytes.
With `BUF_SIZE = 16`, a cursor one byte before the end (so the entry guard
`ptr >= buf + BUF_SIZE` passes) and two bytes in the FIFO, the receive
loop stores at indices 15 and 16: the second store is one past the last
valid index, contradicting the code's own `Avoid buffer overrun` comment. -/
theorem C8_guard_insufficient :
    dbgNearEnd.ptr < 16 ∧
      (handleDebugInput 16 dbgNearEnd [65, 66]).2 = [15, 16] ∧
      16 ∈ (handleDebugInput 16 dbgNearEnd [65, 66]).2 := by
  refine ⟨by decide, by decide, by decide⟩

/-- C9: `DebugInput::matchCommand` returns true exactly when the buffered
line equals the command: the first `strlen(command)` buffer bytes equal
the command bytes and the next buffer byte is the 0 terminator; in
particular a command that is a proper prefix of a longer buffered line
(non-zero byte after the prefix) never matches. -/
theorem C9_matchCommand_exact (s : DebugInput) (cmd : List Nat)
    (hcmd : ∀ c ∈ cmd, c ≠ 0) :
    (s.matchCommand cmd = true ↔
      ((∀ i, i < cmd.length → s.buf i = cmd.getD i 0) ∧ s.buf cmd.length = 0)) ∧
    (s.buf cmd.length ≠ 0 → s.matchCommand cmd = false) := by
  have h1 := strncmpIsZero_eq_true_iff cmd s.buf 0 hcmd
  constructor
  · simp only [DebugInput.matchCommand, Bool.and_eq_true, decide_eq_true_eq, h1]
    constructor
    · intro hr
      refine ⟨fun i hi => ?_, hr.2⟩
      have := hr.1 i hi
      simpa using this
    · intro hr
      refine ⟨fun j hj => ?_, hr.2⟩
      have := hr.1 j hj
      simpa using this
  · intro h0
    simp [DebugInput.matchCommand, h0]

/-- C9 witness: the buffered line "BT" matches the command "BT" and fails
to match once a non-zero byte follows. -/
theorem C9_matchCommand_exact_witness :
    (∀ c ∈ [66, 84], c ≠ 0) ∧
      ((dbgLineBT.matchCommand [66, 84] = true ↔
        ((∀ i, i < ([66, 84] : List Nat).length →
            dbgLineBT.buf i = ([66, 84] : List Nat).getD i 0) ∧
          dbgLineBT.buf ([66, 84] : List Nat).length = 0)) ∧
        (dbgLineBT.buf ([66, 84] : List Nat).length ≠ 0 →
          dbgLineBT.matchCommand [66, 84] = false)) :=
  ⟨by decide, C9_matchCommand_exact dbgLineBT [66, 84] (by decide)⟩

/-- C10: `APP_vHandleDebugInput` changes the buttons override only when a
completed line is present after polling: without a completed line no
`setButtonsOverride` call is recorded, `hasData` was and stays false, and
the buffer is unchanged outside the polled-in stores; with a completed
line the accumulator is reset after the call (cursor back to the start,
`hasData` cleared), so one completed line fires its command at most once. -/
theorem C10_override_frame (B : Nat) (hasSecondButton : Bool) (m1 m2 : Nat)
    (s : DebugInput) (fifo : List Nat) :
    ((handleDebugInput B s fifo).1.hasData = false →
      APP_vHandleDebugInput B hasSecondButton m1 m2 s fifo =
          ((handleDebugInput B s fifo).1, []) ∧
        s.hasData = false ∧
        (∀ i, i ∉ (handleDebugInput B s fifo).2 →
          (handleDebugInput B s fifo).1.buf i = s.buf i)) ∧
    ((handleDebugInput B s fifo).1.hasData = true →
      (APP_vHandleDebugInput B hasSecondButton m1 m2 s fifo).1.ptr = 0 ∧
        (APP_vHandleDebugInput B hasSecondButton m1 m2 s fifo).1.hasData = false) := by
  constructor
  · intro h
    refine ⟨?_, ?_, ?_⟩
    · simp [APP_vHandleDebugInput, h]
    · by_cases hB : B ≤ s.ptr
      · simpa [handleDebugInput, hB] using h
      · by_contra hs
        have hs' : s.hasData = true := by simpa using hs
        have : (handleChars s fifo).1.hasData = true :=
          handleChars_hasData_mono fifo s hs'
        rw [show (handleDebugInput B s fifo).1 = (handleChars s fifo).1 by
          simp [handleDebugInput, hB]] at h
        rw [this] at h
        exact Bool.true_eq_false.mp h
    · intro i hi
      by_cases hB : B ≤ s.ptr
      · simp [handleDebugInput, hB]
      · rw [show (handleDebugInput B s fifo) = handleChars s fifo by
          simp [handleDebugInput, hB]] at hi ⊢
        exact handleChars_frame fifo s i hi
  · intro h
    constructor
    · simp [APP_vHandleDebugInput, h, DebugInput.reset]
    · simp [APP_vHandleDebugInput, h, DebugInput.reset]

/-- C10 witness: polling the line "B\n" into a fresh accumulator completes
a line, and after the call the accumulator is reset. -/
theorem C10_override_frame_witness :
    (APP_vHandleDebugInput 16 true 1 2 dbgEmpty [66, 13]).1.ptr = 0 ∧
      (APP_vHandleDebugInput 16 true 1 2 dbgEmpty [66, 13]).1.hasData = false :=
  (C10_override_frame 16 true 1 2 dbgEmpty [66, 13]).2 (by rfl)

/- ### Lemmas about the classifier state machine -/

theorem onEdgeMulti_press_idle (cfg : ChannelConfiguration) (c d t : Nat) :
    onEdgeMulti cfg ⟨ClPhase.Idle, c, d⟩ true t =
      (⟨ClPhase.PressedWaiting, 1, t + cfg.minLongPress⟩, []) := rfl

theorem onEdgeMulti_release_noLong (cfg : ChannelConfiguration) (c d t : Nat)
    (h : t < d) :
    onEdgeMulti cfg ⟨ClPhase.PressedWaiting, c, d⟩ false t =
      (⟨ClPhase.PauseWaiting, c, t + cfg.maxPause⟩, []) := by
  have hnd : ¬ d ≤ t := by omega
  simp [onEdgeMulti, fireTimers, hnd]

theorem onEdgeMulti_press_inTime (cfg : ChannelConfiguration) (c d t : Nat)
    (h : t ≤ d) :
    onEdgeMulti cfg ⟨ClPhase.PauseWaiting, c, d⟩ true t =
      (⟨ClPhase.PressedWaiting, c + 1, t + cfg.minLongPress⟩, []) := by
  have hnd : ¬ d < t := by omega
  simp [onEdgeMulti, fireTimers, hnd]

theorem onEdgeMulti_release_long (cfg : ChannelConfiguration) (c d t : Nat)
    (h : d ≤ t) :
    onEdgeMulti cfg ⟨ClPhase.PressedWaiting, c, d⟩ false t =
      (initClassifier, [ButtonAction.LongPress, ButtonAction.LongPressRelease]) := by
  simp [onEdgeMulti, fireTimers, h, initClassifier]

theorem onEdgeMulti_release_longActive (cfg : ChannelConfiguration) (t : Nat) :
    onEdgeMulti cfg ⟨ClPhase.LongPressActive, 0, 0⟩ false t =
      (initClassifier, [ButtonAction.LongPressRelease]) := rfl

theorem onTickCl_pause_fire (c d now : Nat) (h : d ≤ now) :
    onTickCl ⟨ClPhase.PauseWaiting, c, d⟩ now = (initClassifier, [finalizeClicks c]) := by
  simp [onTickCl, fireTimers, h]

theorem onTickCl_pause_wait (c d now : Nat) (h : now < d) :
    onTickCl ⟨ClPhase.PauseWaiting, c, d⟩ now = (⟨ClPhase.PauseWaiting, c, d⟩, []) := by
  have hnd : ¬ d ≤ now := by omega
  simp [onTickCl, fireTimers, hnd]

theorem onTickCl_pressed_fire (c d now : Nat) (h : d ≤ now) :
    onTickCl ⟨ClPhase.PressedWaiting, c, d⟩ now =
      (⟨ClPhase.LongPressActive, 0, 0⟩, [ButtonAction.LongPress]) := by
  simp [onTickCl, fireTimers, h]

theorem onTickCl_pressed_wait (c d now : Nat) (h : now < d) :
    onTickCl ⟨ClPhase.PressedWaiting, c, d⟩ now =
      (⟨ClPhase.PressedWaiting, c, d⟩, []) := by
  have hnd : ¬ d ≤ now := by omega
  simp [onTickCl, fireTimers, hnd]

theorem onTickCl_longActive (now : Nat) :
    onTickCl ⟨ClPhase.LongPressActive, 0, 0⟩ now =
      (⟨ClPhase.LongPressActive, 0, 0⟩, []) := rfl

theorem stepEvent_edge_multi (cfg : ChannelConfiguration) (s : ClassifierState)
    (p : Bool) (t : Nat) (hmode : cfg.switchMode = SwitchMode.Multifunction) :
    stepEvent cfg s (InputEvent.edge p t) = onEdgeMulti cfg s p t := by
  simp [stepEvent, onEdge, hmode]

theorem stepEvent_tick_eq (cfg : ChannelConfiguration) (s : ClassifierState) (now : Nat) :
    stepEvent cfg s (InputEvent.tick now) = onTickCl s now := rfl

theorem runClassifier_append (cfg : ChannelConfiguration) (s : ClassifierState)
    (l1 l2 : List InputEvent) :
    runClassifier cfg s (l1 ++ l2) =
      ((runClassifier cfg (runClassifier cfg s l1).1 l2).1,
        (runClassifier cfg s l1).2 ++ (runClassifier cfg (runClassifier cfg s l1).1 l2).2) := by
  induction l1 generalizing s with
  | nil => simp [runClassifier]
  | cons e rest ih => simp [runClassifier, ih, List.append_assoc]

theorem runClassifier_ticks_longActive (cfg : ChannelConfiguration) (ts : List Nat) :
    runClassifier cfg ⟨ClPhase.LongPressActive, 0, 0⟩ (ts.map InputEvent.tick) =
      (⟨ClPhase.LongPressActive, 0, 0⟩, []) := by
  induction ts with
  | nil => rfl
  | cons t ts ih => simp [runClassifier, stepEvent_tick_eq, onTickCl_longActive, ih]

theorem runClassifier_ticks_pressed (cfg : ChannelConfiguration) (c d : Nat)
    (ts : List Nat) :
    runClassifier cfg ⟨ClPhase.PressedWaiting, c, d⟩ (ts.map InputEvent.tick) =
      if ts.any (fun t => decide (d ≤ t)) then
        (⟨ClPhase.LongPressActive, 0, 0⟩, [ButtonAction.LongPress])
      else (⟨ClPhase.PressedWaiting, c, d⟩, []) := by
  induction ts with
  | nil => simp [runClassifier]
  | cons t ts ih =>
    by_cases h : d ≤ t
    · simp [runClassifier, stepEvent_tick_eq, onTickCl_pressed_fire c d t h,
        runClassifier_ticks_longActive, h]
    · have hlt : t < d := by omega
      simp [runClassifier, stepEvent_tick_eq, onTickCl_pressed_wait c d t hlt, ih, h]

theorem finalizeClicks_ge_three (n : Nat) (h : 3 ≤ n) :
    finalizeClicks n = ButtonAction.TriplePress := by
  obtain ⟨m, rfl⟩ : ∃ m, n = m + 3 := ⟨n - 3, by omega⟩
  rfl

theorem runClassifier_clicks (cfg : ChannelConfiguration)
    (hmode : cfg.switchMode = SwitchMode.Multifunction) (ps : List (Nat × Nat)) :
    ∀ (c d : Nat), pairsOk cfg d ps = true →
      runClassifier cfg ⟨ClPhase.PauseWaiting, c, d⟩ (clickEvents ps) =
        (⟨ClPhase.PauseWaiting, c + ps.length, lastDeadline cfg d ps⟩, []) := by
  induction ps with
  | nil => intro c d _; simp [clickEvents, runClassifier, lastDeadline]
  | cons pr ps ih =>
    intro c d h
    obtain ⟨p, r⟩ := pr
    simp only [pairsOk, Bool.and_eq_true, decide_eq_true_eq] at h
    obtain ⟨⟨hp, hr⟩, hrest⟩ := h
    simp only [clickEvents, runClassifier,
      stepEvent_edge_multi cfg _ _ _ hmode,
      onEdgeMulti_press_inTime cfg c d p hp,
      onEdgeMulti_release_noLong cfg (c + 1) (p + cfg.minLongPress) r hr,
      ih (c + 1) (r + cfg.maxPause) hrest]
    simp only [lastDeadline, List.length_cons, List.nil_append]
    have harith : c + 1 + ps.length = c + (ps.length + 1) := by omega
    rw [harith]

/- ### Claims about the multifunction classifier -/

/-- C1: in `Multifunction` mode, N presses (N at most 3), each shorter
than `MinLongPress` and separated by less than `MaxPause`, followed by
silence of at least `MaxPause`, emit exactly the one terminal action
`SinglePress`/`DoublePress`/`TriplePress` matching N; and the relay-mode
engine performs no relay transition on an action unless the configured
`Relay Mode` matches that action. -/
theorem C1_multifunction_clicks (cfg : ChannelConfiguration)
    (p1 r1 p2 r2 p3 r3 T1 T2 T3 : Nat)
    (hmode : cfg.switchMode = SwitchMode.Multifunction)
    (ho1 : p1 ≤ r1) (ho2 : r1 ≤ p2) (ho3 : p2 ≤ r2) (ho4 : r2 ≤ p3) (ho5 : p3 ≤ r3)
    (hd1 : r1 < p1 + cfg.minLongPress)
    (hd2 : r2 < p2 + cfg.minLongPress)
    (hd3 : r3 < p3 + cfg.minLongPress)
    (hg2 : p2 < r1 + cfg.maxPause)
    (hg3 : p3 < r2 + cfg.maxPause)
    (hT1 : r1 + cfg.maxPause ≤ T1)
    (hT2 : r2 + cfg.maxPause ≤ T2)
    (hT3 : r3 + cfg.maxPause ≤ T3) :
    (runClassifier cfg initClassifier
        [InputEvent.edge true p1, InputEvent.edge false r1, InputEvent.tick T1]).2 =
      [ButtonAction.SinglePress] ∧
    (runClassifier cfg initClassifier
        [InputEvent.edge true p1, InputEvent.edge false r1,
          InputEvent.edge true p2, InputEvent.edge false r2, InputEvent.tick T2]).2 =
      [ButtonAction.DoublePress] ∧
    (runClassifier cfg initClassifier
        [InputEvent.edge true p1, InputEvent.edge false r1,
          InputEvent.edge true p2, InputEvent.edge false r2,
          InputEvent.edge true p3, InputEvent.edge false r3, InputEvent.tick T3]).2 =
      [ButtonAction.TriplePress] ∧
    (∀ (relay : Bool) (a : ButtonAction), relayMatches cfg.relayMode a = false →
      (onAction cfg relay a).relayTransition = none) := by
  have e1 : stepEvent cfg initClassifier (InputEvent.edge true p1) =
      (⟨ClPhase.PressedWaiting, 1, p1 + cfg.minLongPress⟩, []) := by
    rw [stepEvent_edge_multi cfg _ _ _ hmode]
    exact onEdgeMulti_press_idle cfg 0 0 p1
  have e2 : stepEvent cfg ⟨ClPhase.PressedWaiting, 1, p1 + cfg.minLongPress⟩
        (InputEvent.edge false r1) =
      (⟨ClPhase.PauseWaiting, 1, r1 + cfg.maxPause⟩, []) := by
    rw [stepEvent_edge_multi cfg _ _ _ hmode]
    exact onEdgeMulti_release_noLong cfg 1 _ r1 hd1
  have e3 : stepEvent cfg ⟨ClPhase.PauseWaiting, 1, r1 + cfg.maxPause⟩
        (InputEvent.edge true p2) =
      (⟨ClPhase.PressedWaiting, 2, p2 + cfg.minLongPress⟩, []) := by
    rw [stepEvent_edge_multi cfg _ _ _ hmode]
    exact onEdgeMulti_press_inTime cfg 1 _ p2 (by omega)
  have e4 : stepEvent cfg ⟨ClPhase.PressedWaiting, 2, p2 + cfg.minLongPress⟩
        (InputEvent.edge false r2) =
      (⟨ClPhase.PauseWaiting, 2, r2 + cfg.maxPause⟩, []) := by
    rw [stepEvent_edge_multi cfg _ _ _ hmode]
    exact onEdgeMulti_release_noLong cfg 2 _ r2 hd2
  have e5 : stepEvent cfg ⟨ClPhase.PauseWaiting, 2, r2 + cfg.maxPause⟩
        (InputEvent.edge true p3) =
      (⟨ClPhase.PressedWaiting, 3, p3 + cfg.minLongPress⟩, []) := by
    rw [stepEvent_edge_multi cfg _ _ _ hmode]
    exact onEdgeMulti_press_inTime cfg 2 _ p3 (by omega)
  have e6 : stepEvent cfg ⟨ClPhase.PressedWaiting, 3, p3 + cfg.minLongPress⟩
        (InputEvent.edge false r3) =
      (⟨ClPhase.PauseWaiting, 3, r3 + cfg.maxPause⟩, []) := by
    rw [stepEvent_edge_multi cfg _ _ _ hmode]
    exact onEdgeMulti_release_noLong cfg 3 _ r3 hd3
  have t1 : stepEvent cfg ⟨ClPhase.PauseWaiting, 1, r1 + cfg.maxPause⟩
        (InputEvent.tick T1) = (initClassifier, [finalizeClicks 1]) := by
    rw [stepEvent_tick_eq]
    exact onTickCl_pause_fire 1 _ T1 hT1
  have t2 : stepEvent cfg ⟨ClPhase.PauseWaiting, 2, r2 + cfg.maxPause⟩
        (InputEvent.tick T2) = (initClassifier, [finalizeClicks 2]) := by
    rw [stepEvent_tick_eq]
    exact onTickCl_pause_fire 2 _ T2 hT2
  have t3 : stepEvent cfg ⟨ClPhase.PauseWaiting, 3, r3 + cfg.maxPause⟩
        (InputEvent.tick T3) = (initClassifier, [finalizeClicks 3]) := by
    rw [stepEvent_tick_eq]
    exact onTickCl_pause_fire 3 _ T3 hT3
  refine ⟨?_, ?_, ?_, ?_⟩
  · simp [runClassifier, e1, e2, t1, finalizeClicks]
  · simp [runClassifier, e1, e2, e3, e4, t2, finalizeClicks]
  · simp [runClassifier, e1, e2, e3, e4, e5, e6, t3, finalizeClicks]
  · intro relay a hmatch
    cases honm : cfg.operatingMode <;> simp [onAction, honm, hmatch]

/-- C1 witness: a concrete multifunction configuration with the clicks at
0/10, 20/30, 40/50 ms and the silence tick at 200 ms. -/
theorem C1_multifunction_clicks_witness :
    (runClassifier cfgMF initClassifier
        [InputEvent.edge true 0, InputEvent.edge false 10, InputEvent.tick 200]).2 =
      [ButtonAction.SinglePress] ∧
    (runClassifier cfgMF initClassifier
        [InputEvent.edge true 0, InputEvent.edge false 10,
          InputEvent.edge true 20, InputEvent.edge false 30, InputEvent.tick 200]).2 =
      [ButtonAction.DoublePress] ∧
    (runClassifier cfgMF initClassifier
        [InputEvent.edge true 0, InputEvent.edge false 10,
          InputEvent.edge true 20, InputEvent.edge false 30,
          InputEvent.edge true 40, InputEvent.edge false 50, InputEvent.tick 200]).2 =
      [ButtonAction.TriplePress] := by
  have h := C1_multifunction_clicks cfgMF 0 10 20 30 40 50 200 200 200
    (by decide) (by decide) (by decide) (by decide) (by decide) (by decide)
    (by decide) (by decide) (by decide) (by decide) (by decide)
    (by decide) (by decide) (by decide)
  exact ⟨h.1, h.2.1, h.2.2.1⟩

/-- C4: in `Multifunction` mode a press held at least `MinLongPress`
emits `LongPress` exactly once (no repeat while the press continues, no
matter how many further ticks arrive), the gesture is never counted as a
click (no single/double/triple action is emitted and the classifier
returns to idle with a zero click count), and `LongPressRelease` is
emitted on the very next release edge. -/
theorem C4_longPress_once (cfg : ChannelConfiguration) (p r : Nat) (ts : List Nat)
    (hmode : cfg.switchMode = SwitchMode.Multifunction)
    (hheld : p + cfg.minLongPress ≤ r) :
    (runClassifier cfg initClassifier
        (InputEvent.edge true p :: (ts.map InputEvent.tick ++ [InputEvent.edge false r]))).2 =
      [ButtonAction.LongPress, ButtonAction.LongPressRelease] ∧
    (runClassifier cfg initClassifier
        (InputEvent.edge true p :: (ts.map InputEvent.tick ++ [InputEvent.edge false r]))).1 =
      initClassifier := by
  have e1 : stepEvent cfg initClassifier (InputEvent.edge true p) =
      (⟨ClPhase.PressedWaiting, 1, p + cfg.minLongPress⟩, []) := by
    rw [stepEvent_edge_multi cfg _ _ _ hmode]
    exact onEdgeMulti_press_idle cfg 0 0 p
  have main : runClassifier cfg initClassifier
      (InputEvent.edge true p :: (ts.map InputEvent.tick ++ [InputEvent.edge false r])) =
      (initClassifier, [ButtonAction.LongPress, ButtonAction.LongPressRelease]) := by
    simp only [runClassifier, e1]
    rw [runClassifier_append]
    rw [runClassifier_ticks_pressed cfg 1 (p + cfg.minLongPress) ts]
    by_cases hfire : ts.any (fun t => decide (p + cfg.minLongPress ≤ t)) = true
    · rw [if_pos hfire]
      simp only [runClassifier, stepEvent_edge_multi cfg _ _ _ hmode,
        onEdgeMulti_release_longActive cfg r]
      simp
    · rw [if_neg hfire]
      simp only [runClassifier, stepEvent_edge_multi cfg _ _ _ hmode,
        onEdgeMulti_release_long cfg 1 (p + cfg.minLongPress) r hheld]
      simp
  exact ⟨by rw [main], by rw [main]⟩

/-- C4 witness: press at 0 ms, a tick at 100 ms (past the 60 ms
`MinLongPress` of the witness configuration), release at 90 ms. -/
theorem C4_longPress_once_witness :
    (runClassifier cfgMF initClassifier
        (InputEvent.edge true 0 ::
          ([100].map InputEvent.tick ++ [InputEvent.edge false 90]))).2 =
      [ButtonAction.LongPress, ButtonAction.LongPressRelease] ∧
    (runClassifier cfgMF initClassifier
        (InputEvent.edge true 0 ::
          ([100].map InputEvent.tick ++ [InputEvent.edge false 90]))).1 =
      initClassifier :=
  C4_longPress_once cfgMF 0 90 [100] (by decide) (by decide)

/-- C7: in `Multifunction` mode, a gesture of N well-timed clicks with
N at least 3 (here one leading click followed by at least two more),
closed by silence of at least `MaxPause`, finalizes to exactly one
emitted action, `TriplePress`: counts of 4 or more collapse to
`TriplePress`. -/
theorem C7_triple_collapse (cfg : ChannelConfiguration) (p r T : Nat)
    (rest : List (Nat × Nat))
    (hmode : cfg.switchMode = SwitchMode.Multifunction)
    (hlen : 2 ≤ rest.length)
    (hr : r < p + cfg.minLongPress)
    (hrest : pairsOk cfg (r + cfg.maxPause) rest = true)
    (hT : lastDeadline cfg (r + cfg.maxPause) rest ≤ T) :
    (runClassifier cfg initClassifier
        (clickEvents ((p, r) :: rest) ++ [InputEvent.tick T])).2 =
      [ButtonAction.TriplePress] := by
  have e1 : stepEvent cfg initClassifier (InputEvent.edge true p) =
      (⟨ClPhase.PressedWaiting, 1, p + cfg.minLongPress⟩, []) := by
    rw [stepEvent_edge_multi cfg _ _ _ hmode]
    exact onEdgeMulti_press_idle cfg 0 0 p
  have e2 : stepEvent cfg ⟨ClPhase.PressedWaiting, 1, p + cfg.minLongPress⟩
        (InputEvent.edge false r) =
      (⟨ClPhase.PauseWaiting, 1, r + cfg.maxPause⟩, []) := by
    rw [stepEvent_edge_multi cfg _ _ _ hmode]
    exact onEdgeMulti_release_noLong cfg 1 _ r hr
  have hclicks := runClassifier_clicks cfg hmode rest 1 (r + cfg.maxPause) hrest
  have tfin : stepEvent cfg
        ⟨ClPhase.PauseWaiting, 1 + rest.length, lastDeadline cfg (r + cfg.maxPause) rest⟩
        (InputEvent.tick T) =
      (initClassifier, [finalizeClicks (1 + rest.length)]) := by
    rw [stepEvent_tick_eq]
    exact onTickCl_pause_fire _ _ T hT
  simp only [clickEvents, List.cons_append, runClassifier, e1, e2, List.append_eq]
  rw [runClassifier_append, hclicks]
  simp only [runClassifier, tfin]
  simp [finalizeClicks_ge_three (1 + rest.length) (by omega)]

/-- C7 witness: four rapid clicks at 0/10, 20/30, 40/50, 60/70 ms and the
silence tick at 300 ms collapse to a single `TriplePress`. -/
theorem C7_triple_collapse_witness :
    (runClassifier cfgMF initClassifier
        (clickEvents ((0, 10) :: [(20, 30), (40, 50), (60, 70)]) ++
          [InputEvent.tick 300])).2 =
      [ButtonAction.TriplePress] :=
  C7_triple_collapse cfgMF 0 10 300 [(20, 30), (40, 50), (60, 70)]
    (by decide) (by decide) (by decide) (by decide) (by decide)

/- ### Claims about the relay-mode engine, interlock and configuration -/

/-- C5: with `LongPressMode` other than `None`, `LongPress` yields a
level-control move network command intent whose direction follows the
mode (`Up` for `LevelCtrlUp`, `Down` for `LevelCtrlDown`) and
`LongPressRelease` yields a level-control stop intent, whatever the
configured `Relay Mode` (so independently of whether `LongPress` also
toggles the relay) and in both operating modes. -/
theorem C5_levelControl_commands (cfg : ChannelConfiguration) (relay : Bool)
    (h : cfg.longPressMode ≠ LongPressMode.None) :
    (onAction cfg relay ButtonAction.LongPress).networkCommandIntent =
      some (NetworkCommand.LevelMove
        (decide (cfg.longPressMode = LongPressMode.LevelCtrlUp))) ∧
    (onAction cfg relay ButtonAction.LongPressRelease).networkCommandIntent =
      some NetworkCommand.LevelStop := by
  rcases cfg with ⟨om, sm, sa, rm, lpm, im, mp, mlp⟩
  cases om <;> cases lpm <;>
    simp_all [onAction, levelControlIntent]

/-- C5 witness: the concrete `LevelCtrlUp` configuration produces a move
up intent on `LongPress` and a stop intent on `LongPressRelease`. -/
theorem C5_levelControl_commands_witness :
    (onAction cfgMF false ButtonAction.LongPress).networkCommandIntent =
      some (NetworkCommand.LevelMove
        (decide (cfgMF.longPressMode = LongPressMode.LevelCtrlUp))) ∧
    (onAction cfgMF false ButtonAction.LongPressRelease).networkCommandIntent =
      some NetworkCommand.LevelStop :=
  C5_levelControl_commands cfgMF false (by decide)

/-- C6: a configuration write that is a `ConfigurationConflict` — a
`Relay Mode` write while `Switch Mode` is not `Multifunction`, or an
`Interlock Mode` write that disagrees with the paired sibling — is
rejected: the previous configuration is returned unchanged in every
field, together with an error status (the write function is total, so no
fault is ever raised); and in general any rejected write leaves the
configuration untouched. -/
theorem C6_config_conflict (self sib : ChannelConfiguration)
    (rm : RelayMode) (im : InterlockMode)
    (h1 : self.switchMode ≠ SwitchMode.Multifunction)
    (h2 : im ≠ sib.interlockMode) :
    writeConfig self sib (ConfigWrite.setRelayMode rm) =
      (self, some ConfigError.ConfigurationConflict) ∧
    writeConfig self sib (ConfigWrite.setInterlockMode im) =
      (self, some ConfigError.ConfigurationConflict) ∧
    (∀ w : ConfigWrite,
      (writeConfig self sib w).2 = some ConfigError.ConfigurationConflict →
        (writeConfig self sib w).1 = self) := by
  refine ⟨by simp [writeConfig, h1], by simp [writeConfig, h2], ?_⟩
  intro w hw
  cases w <;>
    simp only [writeConfig] at hw ⊢ <;>
    first
      | (simp at hw)
      | (split at hw <;> simp_all)

/-- C6 witness: writing `Relay Mode` to a `Toggle`-mode channel and an
`Interlock Mode` disagreeing with the sibling are both rejected with the
previous configuration retained. -/
theorem C6_config_conflict_witness :
    writeConfig cfgToggle cfgMF (ConfigWrite.setRelayMode RelayMode.Single) =
      (cfgToggle, some ConfigError.ConfigurationConflict) ∧
    writeConfig cfgToggle cfgMF (ConfigWrite.setInterlockMode InterlockMode.Opposite) =
      (cfgToggle, some ConfigError.ConfigurationConflict) :=
  ⟨(C6_config_conflict cfgToggle cfgMF RelayMode.Single InterlockMode.Opposite
      (by decide) (by decide)).1,
    (C6_config_conflict cfgToggle cfgMF RelayMode.Single InterlockMode.Opposite
      (by decide) (by decide)).2.1⟩

/-- C2: under `MutualExclusion`, every state reachable from a state
satisfying the interlock invariant keeps the invariant: the two sibling
relays are never both on.  Moreover a transition to `on` forces the
sibling off within the same call, a transition to `off` never changes the
sibling, and the both-off state satisfies the invariant. -/
theorem C2_mutual_exclusion :
    (∀ init s : RelayPair, ¬(init.chA = true ∧ init.chB = true) →
      ReachableFrom InterlockMode.MutualExclusion init s →
        ¬(s.chA = true ∧ s.chB = true)) ∧
    (∀ (s : RelayPair) (ch : ChannelId),
      getRelay (proposeTransition InterlockMode.MutualExclusion s ch true)
        (siblingOf ch) = false) ∧
    (∀ (s : RelayPair) (ch : ChannelId),
      getRelay (proposeTransition InterlockMode.MutualExclusion s ch false)
          (siblingOf ch) = getRelay s (siblingOf ch) ∧
        getRelay (proposeTransition InterlockMode.MutualExclusion s ch false) ch =
          false) ∧
    ¬((RelayPair.mk false false).chA = true ∧ (RelayPair.mk false false).chB = true) := by
  refine ⟨?_, ?_, ?_, by decide⟩
  · intro init s hinit hreach
    induction hreach with
    | refl => exact hinit
    | step s' ch b _ _ =>
      rcases s' with ⟨a, b'⟩
      cases ch <;> cases b <;>
        simp [proposeTransition, setRelay, siblingOf]
  · intro s ch
    rcases s with ⟨a, b⟩
    cases ch <;> simp [proposeTransition, setRelay, siblingOf, getRelay]
  · intro s ch
    rcases s with ⟨a, b⟩
    cases ch <;> simp [proposeTransition, setRelay, siblingOf, getRelay]

/-- C2 witness: from the both-off state, turning channel B on reaches a
state where the two relays are not both on. -/
theorem C2_mutual_exclusion_witness :
    ¬((RelayPair.mk false true).chA = true ∧ (RelayPair.mk false true).chB = true) :=
  C2_mutual_exclusion.1 (RelayPair.mk false false) (RelayPair.mk false true)
    (by decide)
    (ReachableFrom.step (RelayPair.mk false false) ChannelId.B true
      ReachableFrom.refl)

/-- C3: under `Opposite`, every state reachable from a state satisfying
the interlock invariant keeps the two sibling relays in logically negated
states; and any proposed transition forces, within the same call, the
transitioning channel to the proposed state and its sibling to the
negation (the model applies both updates in one atomic call, so no
intermediate state with equal siblings is observable). -/
theorem C3_opposite_negation :
    (∀ init s : RelayPair, init.chA = !init.chB →
      ReachableFrom InterlockMode.Opposite init s → s.chA = !s.chB) ∧
    (∀ (s : RelayPair) (ch : ChannelId) (b : Bool),
      getRelay (proposeTransition InterlockMode.Opposite s ch b) ch = b ∧
        getRelay (proposeTransition InterlockMode.Opposite s ch b) (siblingOf ch) =
          !b) := by
  constructor
  · intro init s hinit hreach
    induction hreach with
    | refl => exact hinit
    | step s' ch b _ _ =>
      rcases s' with ⟨a, b'⟩
      cases ch <;> cases b <;>
        simp [proposeTransition, setRelay, siblingOf]
  · intro s ch b
    rcases s with ⟨a, b'⟩
    cases ch <;> cases b <;>
      simp [proposeTransition, setRelay, siblingOf, getRelay]

/-- C3 witness: from the consistent state A-on/B-off, proposing B on
forces A off in the same call, keeping the negation invariant. -/
theorem C3_opposite_negation_witness :
    (RelayPair.mk false true).chA = !(RelayPair.mk false true).chB :=
  C3_opposite_negation.1 (RelayPair.mk true false) (RelayPair.mk false true)
    (by decide)
    (ReachableFrom.step (RelayPair.mk true false) ChannelId.B true
      ReachableFrom.refl)
